import Mathlib

/-!
Verification development for the bpmagent repository.

This file gives a shallow embedding, in Lean 4, of the parts of the
repository that the specification's claims are about:

* the smart validation engine (backend/services/validation.py),
* the page-kind inference (backend/services/browser/base.py),
* the intent classifier with its keyword fallback
  (backend/services/ai/qwen_service.py),
* the conversational orchestrator's streaming turn processing, field
  matcher and auto-fill batch (backend/services/bpm_agent.py), together
  with the Task Record columns of backend/models/user.py.

Python strings are modelled as Lean strings; functions such as lower(),
strip(), split() and the substring test are re-implemented below on lists
of characters (ASCII case mapping; the Unicode-wide case and whitespace
tables of CPython are not needed by any claim).  Python Decimal values are
modelled exactly as an integer unscaled value with a decimal scale
(exponent-style inputs and the 28-digit context rounding of CPython are
outside the inputs any claim touches and are noted where relevant).
External collaborators (language model, browser driver) are passed in as
explicit oracle values describing the outcome of each call, and calls to
the persistence layer (an external collaborator in the design) are
modelled as pure record updates that do not fail.
-/

namespace BpmAgent

/-! ## Python string primitives -/

/-- Python str.lower(), restricted to the ASCII case mapping.  CJK
characters, which make up the keyword tables, are unaffected by lower()
in both CPython and this model. -/
def pyLower (s : String) : String :=
  ⟨s.data.map Char.toLower⟩

/-- Python substring test, needle in hay. -/
def strContains (hay needle : String) : Bool :=
  hay.data.tails.any (fun t => needle.data.isPrefixOf t)

/-- Python str.startswith. -/
def strStartsWith (s p : String) : Bool :=
  p.data.isPrefixOf s.data

def isPyWhitespace (c : Char) : Bool :=
  c = ' ' || c = '\t' || c = '\n' || c = '\r' || c = '\x0b' || c = '\x0c'

/-- Python str.strip() with no argument (ASCII whitespace). -/
def pyStrip (s : String) : String :=
  ⟨(s.data.dropWhile isPyWhitespace).reverse.dropWhile isPyWhitespace |>.reverse⟩

def splitWsAux : List Char → List Char → List String
  | [], acc => if acc.isEmpty then [] else [⟨acc.reverse⟩]
  | c :: rest, acc =>
    if isPyWhitespace c then
      if acc.isEmpty then splitWsAux rest []
      else ⟨acc.reverse⟩ :: splitWsAux rest []
    else splitWsAux rest (c :: acc)

/-- Python str.split() with no argument: split on whitespace runs,
dropping empty pieces. -/
def pySplitWs (s : String) : List String :=
  splitWsAux s.data []

def splitOnCharAux (sep : Char) : List Char → List Char → List String
  | [], acc => [⟨acc.reverse⟩]
  | c :: rest, acc =>
    if c = sep then ⟨acc.reverse⟩ :: splitOnCharAux sep rest []
    else splitOnCharAux sep rest (c :: acc)

/-- Python str.split(sep) for a one-character separator: keeps empty
pieces, always returns at least one piece. -/
def pySplitOn (sep : Char) (s : String) : List String :=
  splitOnCharAux sep s.data []

/-- Python str.isdigit() over ASCII digits: nonempty and all digits. -/
def pyIsDigit (s : String) : Bool :=
  !s.data.isEmpty && s.data.all Char.isDigit

/-- Python str.replace(needle, rep): replace every non-overlapping
occurrence, scanning left to right.  The fuel argument is the remaining
scan length; callers pass the full length.  An empty needle never arises
on the reachable paths of the source and is returned unchanged here. -/
def replaceAllAux (needle rep : List Char) : Nat → List Char → List Char
  | _, [] => []
  | 0, hay => hay
  | fuel + 1, hay@(c :: rest) =>
    if needle.isEmpty then hay
    else if needle.isPrefixOf hay then
      rep ++ replaceAllAux needle rep fuel (hay.drop needle.length)
    else c :: replaceAllAux needle rep fuel rest

/-- Python str.replace (all occurrences). -/
def pyReplace (s needle rep : String) : String :=
  ⟨replaceAllAux needle.data rep.data s.data.length s.data⟩

/-- Truthiness of an optional string value pulled out of a dict with
.get: None and the empty string are falsy. -/
def strFalsy (s : String) : Bool :=
  s.data.isEmpty

def truthyOpt : Option String → Bool
  | none => false
  | some s => !strFalsy s

/-- Lookup in a Python dict modelled as an association list (dicts keep
insertion order; keys are unique). -/
def formGet (form : List (String × String)) (k : String) : Option String :=
  (form.find? (fun kv => kv.1 == k)).map (·.2)

/-- Python key-membership test, k in form_data. -/
def formHasKey (form : List (String × String)) (k : String) : Bool :=
  form.any (fun kv => kv.1 == k)

def natFromDigits (cs : List Char) : Nat :=
  cs.foldl (fun acc c => 10 * acc + (c.toNat - '0'.toNat)) 0

/-! ## Python Decimal

A Decimal value is an integer unscaled value together with a decimal
scale (the negated exponent): the numeric value is unscaled / 10^scale.
Addition and subtraction in CPython's decimal module are exact at the
larger of the two scales; str() prints the coefficient with the stored
scale.  Exponent-form input strings (1E+2), Infinity and NaN do not occur
on the inputs of any claim and are treated as parse failures. -/

structure PyDec where
  unscaled : Int
  scale : Nat
deriving DecidableEq, Repr

namespace PyDec

/-- The exact rational value of a Decimal. -/
def val (d : PyDec) : ℚ :=
  (d.unscaled : ℚ) / (10 ^ d.scale : ℕ)

def sub (a b : PyDec) : PyDec :=
  let s := max a.scale b.scale
  ⟨a.unscaled * 10 ^ (s - a.scale) - b.unscaled * 10 ^ (s - b.scale), s⟩

def abs (a : PyDec) : PyDec :=
  ⟨a.unscaled.natAbs, a.scale⟩

/-- Exact comparison a > b (Decimal comparison is value comparison). -/
def gt (a b : PyDec) : Bool :=
  b.unscaled * 10 ^ a.scale < a.unscaled * 10 ^ b.scale

def ltZero (a : PyDec) : Bool :=
  a.unscaled < 0

def gtZero (a : PyDec) : Bool :=
  0 < a.unscaled

/-- Python str(Decimal) for a non-negative exponent value: sign, then the
coefficient digits with the decimal point inserted scale places from the
right, zero-padding the integer part. -/
def toString (d : PyDec) : String :=
  let sign := if d.unscaled < 0 then "-" else ""
  let ds := (Nat.repr d.unscaled.natAbs).data
  if d.scale = 0 then sign ++ ⟨ds⟩
  else
    let ds := if ds.length ≤ d.scale then List.replicate (d.scale + 1 - ds.length) '0' ++ ds else ds
    sign ++ ⟨ds.take (ds.length - d.scale)⟩ ++ "." ++ ⟨ds.drop (ds.length - d.scale)⟩

end PyDec

def parseDecDigits : List Char → Option PyDec
  | cs =>
    let intPart := cs.takeWhile Char.isDigit
    let rest := cs.dropWhile Char.isDigit
    match rest with
    | [] => if intPart.isEmpty then none else some ⟨natFromDigits intPart, 0⟩
    | '.' :: frac =>
      if frac.all Char.isDigit && !(intPart.isEmpty && frac.isEmpty) then
        some ⟨natFromDigits (intPart ++ frac), frac.length⟩
      else none
    | _ => none

/-- Python Decimal(str): optional surrounding whitespace, optional sign,
digits with an optional fractional part (at least one digit overall).
Returns none where CPython raises InvalidOperation. -/
def parsePyDec (s : String) : Option PyDec :=
  match (pyStrip s).data with
  | '-' :: cs => (parseDecDigits cs).map (fun d => ⟨-d.unscaled, d.scale⟩)
  | '+' :: cs => parseDecDigits cs
  | cs => parseDecDigits cs

/-- Python str(Decimal(n) / Decimal(100)) for an integral n (scale 0):
exact division whose result is trimmed toward the ideal exponent 0, as in
CPython for the operands reachable in the source (the amount-suggestion
path, where the dividend has no fractional part). -/
def decDiv100String (d : PyDec) : String :=
  let n := d.unscaled.natAbs
  let sign := if d.unscaled < 0 then "-" else ""
  if n % 100 = 0 then sign ++ Nat.repr (n / 100)
  else if n % 10 = 0 then sign ++ PyDec.toString ⟨(n / 10 : Nat), 1⟩
  else sign ++ PyDec.toString ⟨(n : Nat), 2⟩

/-! ## Dates

strptime with format %Y-%m-%d, modelled as: exactly four year digits,
one or two month digits in 1..12, one or two day digits valid for the
month, separated by single dashes with nothing left over.  Dates are
compared through their proleptic Gregorian ordinal, as in
datetime.date.toordinal; today's date enters as an explicit ordinal
parameter. -/

def isLeapYear (y : Nat) : Bool :=
  y % 4 = 0 && (y % 100 ≠ 0 || y % 400 = 0)

def daysInMonth (y m : Nat) : Nat :=
  if m = 2 then (if isLeapYear y then 29 else 28)
  else if m = 4 || m = 6 || m = 9 || m = 11 then 30
  else 31

def daysBeforeMonth (y m : Nat) : Nat :=
  (List.range (m - 1)).foldl (fun acc i => acc + daysInMonth y (i + 1)) 0

/-- datetime.date.toordinal: day 1 is January 1 of year 1. -/
def dateOrdinal (y m d : Nat) : Nat :=
  365 * (y - 1) + ((y - 1) / 4 - (y - 1) / 100 + (y - 1) / 400) + daysBeforeMonth y m + d

def parseDatePart (digits : Nat) (cs : List Char) : Option Nat :=
  if cs.length ≥ 1 && cs.length ≤ digits && cs.all Char.isDigit then
    some (natFromDigits cs)
  else none

/-- datetime.strptime(s, %Y-%m-%d).date(), as an ordinal; none where
CPython raises ValueError. -/
def parsePyDate (s : String) : Option Nat :=
  match pySplitOn '-' s with
  | [ys, ms, ds] =>
    if ys.data.length = 4 && ys.data.all Char.isDigit then
      let y := natFromDigits ys.data
      match parseDatePart 2 ms.data, parseDatePart 2 ds.data with
      | some m, some d =>
        if 1 ≤ y && 1 ≤ m && m ≤ 12 && 1 ≤ d && d ≤ daysInMonth y m then
          some (dateOrdinal y m d)
        else none
      | _, _ => none
    else none
  | _ => none

/-! ## Validation engine (backend/services/validation.py)

The exception oracle passed to validateField stands for a Python
exception escaping the body of the per-field checks; the except clause of
validate_field converts it to an error result.  The context argument of
validate_field and _generate_smart_suggestion is never read by the source
and is dropped here.  Field values arrive as strings (the source
immediately wraps them in str()); a value is falsy exactly when empty. -/

inductive ValidationType where
  | required | format | range | business | crossField
deriving DecidableEq, Repr

inductive ValidationSeverity where
  | error | warning | info
deriving DecidableEq, Repr

structure ValidationResult where
  field : String
  validation_type : ValidationType
  severity : ValidationSeverity
  message : String
  is_valid : Bool
  suggested_value : Option String := none
deriving DecidableEq, Repr

/-- Python regex ^1[3-9]\d{9}$ (the phone rule). -/
def matchPhonePattern (s : String) : Bool :=
  match s.data with
  | '1' :: c :: rest => ('3' ≤ c && c ≤ '9') && rest.length = 9 && rest.all Char.isDigit
  | _ => false

/-- Python regex ^\d+(\.\d{1,2})?$ (the amount rule). -/
def matchAmountPattern (s : String) : Bool :=
  let ip := s.data.takeWhile Char.isDigit
  let rest := s.data.dropWhile Char.isDigit
  !ip.isEmpty &&
    (rest.isEmpty ||
      (match rest with
       | '.' :: frac => (frac.length = 1 || frac.length = 2) && frac.all Char.isDigit
       | _ => false))

/-- Python regex ^\d{4}-\d{2}-\d{2}$ (the date rule). -/
def matchDatePattern (s : String) : Bool :=
  match s.data with
  | [a, b, c, d, '-', e, f, '-', g, h] => [a, b, c, d, e, f, g, h].all Char.isDigit
  | _ => false

/-- Python regex for the id_card rule: six leading region digits (first
nonzero), a 18/19/20 century, two year digits, a month 01-12, a day
01-31, three sequence digits and a digit or X checksum. -/
def matchIdCardPattern (s : String) : Bool :=
  match s.data with
  | [a1, a2, a3, a4, a5, a6, y1, y2, y3, y4, m1, m2, d1, d2, q1, q2, q3, ck] =>
    ('1' ≤ a1 && a1 ≤ '9') && [a2, a3, a4, a5, a6].all Char.isDigit &&
    ((y1 = '1' && (y2 = '8' || y2 = '9')) || (y1 = '2' && y2 = '0')) &&
    y3.isDigit && y4.isDigit &&
    ((m1 = '0' && '1' ≤ m2 && m2 ≤ '9') || (m1 = '1' && '0' ≤ m2 && m2 ≤ '2')) &&
    ((d1 = '0' && '1' ≤ d2 && d2 ≤ '9') || ((d1 = '1' || d1 = '2') && d2.isDigit) ||
      (d1 = '3' && (d2 = '0' || d2 = '1'))) &&
    [q1, q2, q3].all Char.isDigit && (ck.isDigit || ck = 'X' || ck = 'x')
  | _ => false

def emailLocalChar (c : Char) : Bool :=
  c.isAlphanum || c = '.' || c = '_' || c = '%' || c = '+' || c = '-'

def emailDomainChar (c : Char) : Bool :=
  c.isAlphanum || c = '.' || c = '-'

/-- Python email regex: one or more local characters, an at sign, then a
domain that ends in a dot followed by at least two letters. -/
def matchEmailPattern (s : String) : Bool :=
  let lp := s.data.takeWhile (fun c => c ≠ '@')
  match s.data.dropWhile (fun c => c ≠ '@') with
  | '@' :: dom =>
    !lp.isEmpty && lp.all emailLocalChar &&
    (List.range dom.length).any (fun i =>
      dom.getD i ' ' = '.' && 1 ≤ i && (dom.take i).all emailDomainChar &&
      2 ≤ dom.length - (i + 1) && (dom.drop (i + 1)).all Char.isAlpha)
  | _ => false

/-- SmartValidationService._infer_field_type. -/
def inferFieldType (fieldName : String) : String :=
  let f := pyLower fieldName
  if ["email", "mail", "邮箱"].any (strContains f ·) then "email"
  else if ["phone", "tel", "mobile", "电话", "手机"].any (strContains f ·) then "phone"
  else if ["id", "card", "身份证"].any (strContains f ·) then "id_card"
  else if ["amount", "money", "price", "金额", "价格"].any (strContains f ·) then "amount"
  else if ["date", "time", "日期", "时间"].any (strContains f ·) then "date"
  else "text"

/-- SmartValidationService._is_required_field. -/
def isRequiredField (fieldName : String) : Bool :=
  let f := pyLower fieldName
  ["name", "email", "phone", "amount", "date",
   "姓名", "邮箱", "电话", "金额", "日期"].any (strContains f ·)

/-- SmartValidationService._suggest_format_correction. -/
def suggestFormatCorrection (fieldType value : String) : Option String :=
  if fieldType = "phone" then
    let digitsOnly := value.data.filter Char.isDigit
    if digitsOnly.length = 11 && digitsOnly.head? = some '1' then some ⟨digitsOnly⟩
    else none
  else if fieldType = "email" then
    if !strContains value "@" && strContains value "." then
      let parts := pySplitOn '.' value
      if 2 ≤ parts.length then
        some (parts.headD "" ++ "@" ++ String.intercalate "." parts.tail)
      else none
    else none
  else if fieldType = "amount" then
    let cleaned := value.data.filter (fun c => c.isDigit || c = '.')
    if !cleaned.isEmpty && pyIsDigit ⟨cleaned.filter (fun c => c ≠ '.')⟩ then some ⟨cleaned⟩
    else none
  else none

/-- The default format rules, keyed by inferred field type: the error
message and the pattern of the rule (all five rules carry the error
severity). -/
def formatRuleFor (fieldType : String) : Option (String × (String → Bool)) :=
  if fieldType = "email" then some ("邮箱格式不正确", matchEmailPattern)
  else if fieldType = "phone" then some ("手机号格式不正确，应为11位数字", matchPhonePattern)
  else if fieldType = "id_card" then some ("身份证号格式不正确", matchIdCardPattern)
  else if fieldType = "amount" then some ("金额格式不正确，应为数字且最多保留两位小数", matchAmountPattern)
  else if fieldType = "date" then some ("日期格式不正确，应为YYYY-MM-DD格式", matchDatePattern)
  else none

/-- SmartValidationService._validate_format. -/
def validateFormat (fieldName value : String) : Option ValidationResult :=
  let ft := inferFieldType fieldName
  match formatRuleFor ft with
  | none => none
  | some (errMsg, pat) =>
    let v := pyStrip value
    if !pat v then
      some ⟨fieldName, .format, .error, errMsg, false, suggestFormatCorrection ft v⟩
    else
      some ⟨fieldName, .format, .info, fieldName ++ " 格式正确", true, none⟩

/-- SmartValidationService._validate_range; today is the ordinal of
date.today(). -/
def validateRange (today : Nat) (fieldName value : String) : Option ValidationResult :=
  let ft := inferFieldType fieldName
  if ft = "amount" then
    match parsePyDec value with
    | none => some ⟨fieldName, .range, .error, "金额格式无效", false, none⟩
    | some amount =>
      if amount.ltZero then
        some ⟨fieldName, .range, .error, "金额不能为负数", false, some "0.00"⟩
      else if PyDec.gt amount ⟨99999999999, 2⟩ then
        some ⟨fieldName, .range, .warning, "金额过大，请确认是否正确", true, none⟩
      else none
  else if ft = "date" then
    match parsePyDate value with
    | none => some ⟨fieldName, .range, .error, "日期格式无效", false, none⟩
    | some ord =>
      if today < ord then
        some ⟨fieldName, .range, .warning, "日期为未来日期，请确认是否正确", true, none⟩
      else if 3650 < today - ord then
        some ⟨fieldName, .range, .warning, "日期过于久远，请确认是否正确", true, none⟩
      else none
  else none

/-- SmartValidationService._calculate_similarity: the shared distinct
characters over all distinct characters. -/
def calcSimilarity (s1 s2 : String) : ℚ :=
  if s1.data.length = 0 then 0
  else if s2.data.length = 0 then 0
  else
    let common := (s1.data.dedup.filter (fun c => s2.data.contains c)).length
    let total := ((s1.data ++ s2.data).dedup).length
    if total = 0 then 0 else (common : ℚ) / (total : ℚ)

def commonEmailDomains : List String :=
  ["gmail.com", "qq.com", "163.com", "126.com", "sina.com", "hotmail.com"]

/-- SmartValidationService._generate_smart_suggestion.  The float
comparison with 0.8 is carried out exactly over the rationals. -/
def generateSmartSuggestion (fieldName value : String) : Option ValidationResult :=
  let ft := inferFieldType fieldName
  let v := pyStrip value
  if ft = "phone" && v.data.length = 11 && pyIsDigit v then
    if !strStartsWith v "1" then
      some ⟨fieldName, .format, .warning, "手机号通常以1开头，请确认是否正确", true,
            some ("1" ++ ⟨v.data.drop 1⟩)⟩
    else none
  else if ft = "email" && strContains v "@" then
    let domain := pyLower ((pySplitOn '@' v).getLastD "")
    match commonEmailDomains.find?
        (fun cd => decide ((4 : ℚ) / 5 < calcSimilarity domain cd) && domain ≠ cd) with
    | some cd =>
      let se := pyReplace v domain cd
      some ⟨fieldName, .format, .info, "您是否想输入 " ++ se ++ "？", true, some se⟩
    | none => none
  else if ft = "amount" then
    match parsePyDec v with
    | none => none
    | some amount =>
      if !strContains v "." && PyDec.gt amount ⟨1000, 0⟩ then
        let sa := decDiv100String amount
        some ⟨fieldName, .format, .info, "金额较大，您是否想输入 " ++ sa ++ "？", true, some sa⟩
      else none
  else none

/-- SmartValidationService.validate_field.  The first argument is the
exception oracle: some e means a Python exception with text e escapes the
per-field checks, which the except clause converts into a single
error-severity result for the field. -/
def validateField (exn : Option String) (today : Nat) (fieldName value : String) :
    List ValidationResult :=
  match exn with
  | some e => [⟨fieldName, .format, .error, "验证过程中出现错误: " ++ e, false, none⟩]
  | none =>
    if isRequiredField fieldName && strFalsy value then
      [⟨fieldName, .required, .error, fieldName ++ " 是必填字段", false, none⟩]
    else if strFalsy value then []
    else
      (validateFormat fieldName value).toList ++
      (validateRange today fieldName value).toList ++
      (generateSmartSuggestion fieldName value).toList

/-- SmartValidationService._validate_cross_fields. -/
def validateCrossFields (form : List (String × String)) : List ValidationResult :=
  (if formHasKey form "email" || formHasKey form "phone" then
    let email := pyStrip ((formGet form "email").getD "")
    let phone := pyStrip ((formGet form "phone").getD "")
    if strFalsy email && strFalsy phone then
      [⟨"contact", .crossField, .error, "邮箱和手机号至少需要填写一个", false, none⟩]
    else []
  else []) ++
  (let sd := formGet form "start_date"
   let ed := formGet form "end_date"
   if truthyOpt sd && truthyOpt ed then
     match parsePyDate (sd.getD ""), parsePyDate (ed.getD "") with
     | some s, some e =>
       if e < s then
         [⟨"date_range", .crossField, .error, "开始日期不能晚于结束日期", false, none⟩]
       else []
     | _, _ => []
   else [])

/-- Python format(x, .2f) on the nonnegative exact ratio num / den:
round half to even at two decimal places. -/
def formatRatio2 (num den : Nat) : String :=
  let n := num * 100
  let q := n / den
  let r := n % den
  let rounded := if den < 2 * r then q + 1 else if 2 * r < den then q
    else if q % 2 = 0 then q else q + 1
  PyDec.toString ⟨(rounded : Int), 2⟩

/-- SmartValidationService._validate_invoice_amount_consistency.  A
Decimal parse failure raises inside the rule's try block, so the results
accumulated so far (always none at that point) are returned. -/
def validateInvoiceAmountConsistency (form : List (String × String)) :
    List ValidationResult :=
  let totalS := formGet form "total_amount"
  let taxS := formGet form "tax_amount"
  if truthyOpt totalS && truthyOpt taxS then
    match parsePyDec (totalS.getD "") with
    | none => []
    | some total =>
      match parsePyDec (taxS.getD "") with
      | none => []
      | some tax =>
        let calcNet := PyDec.sub total tax
        let taxRatePart :=
          if total.gtZero then
            let num : Int := tax.unscaled * 10 ^ total.scale * 100
            let den : Int := total.unscaled * 10 ^ tax.scale
            if 20 * den < num then
              [⟨"tax_rate", .business, .warning,
                "税率(" ++ formatRatio2 num.toNat den.toNat ++ "%)较高，请确认是否正确", true, none⟩]
            else []
          else []
        let netS := formGet form "net_amount"
        if truthyOpt netS then
          match parsePyDec (netS.getD "") with
          | none => []
          | some net =>
            (if PyDec.gt (PyDec.abs (PyDec.sub calcNet net)) ⟨1, 2⟩ then
              [⟨"amount_consistency", .business, .error,
                "金额不一致：总金额(" ++ total.toString ++ ") - 税额(" ++ tax.toString ++
                  ") ≠ 不含税金额(" ++ net.toString ++ ")", false, some calcNet.toString⟩]
            else []) ++ taxRatePart
        else
          [⟨"net_amount", .business, .info, "建议填写不含税金额", true,
            some calcNet.toString⟩] ++ taxRatePart
  else []

/-- SmartValidationService._validate_date_range. -/
def validateDateRange (form : List (String × String)) : List ValidationResult :=
  let inv := formGet form "invoice_date"
  let due := formGet form "due_date"
  if truthyOpt inv && truthyOpt due then
    match parsePyDate (inv.getD ""), parsePyDate (due.getD "") with
    | some i, some d =>
      (if d < i then
        [⟨"date_logic", .business, .error, "到期日期不能早于开票日期", false, none⟩]
      else []) ++
      (let diff : ℤ := (d : ℤ) - (i : ℤ)
       if 365 < diff then
        [⟨"payment_term", .business, .warning,
          "付款期限(" ++ toString diff ++ "天)较长，请确认是否正确", true, none⟩]
       else [])
    | _, _ => []
  else []

def matchTaxIdPattern (s : String) : Bool :=
  15 ≤ s.data.length && s.data.length ≤ 20 &&
  s.data.all (fun c => c.isDigit || ('A' ≤ c && c ≤ 'Z'))

/-- SmartValidationService._validate_company_info. -/
def validateCompanyInfo (form : List (String × String)) : List ValidationResult :=
  let seller := pyStrip ((formGet form "seller_name").getD "")
  let buyer := pyStrip ((formGet form "buyer_name").getD "")
  let sellerTaxId := pyStrip ((formGet form "seller_tax_id").getD "")
  let buyerTaxId := pyStrip ((formGet form "buyer_tax_id").getD "")
  (if !strFalsy seller && !strFalsy buyer && seller = buyer then
    [⟨"company_consistency", .business, .error, "销售方和购买方不能相同", false, none⟩]
  else []) ++
  (if !strFalsy sellerTaxId && !matchTaxIdPattern sellerTaxId then
    [⟨"seller_tax_id", .business, .warning, "销售方税号格式可能不正确", true, none⟩]
  else []) ++
  (if !strFalsy buyerTaxId && !matchTaxIdPattern buyerTaxId then
    [⟨"buyer_tax_id", .business, .warning, "购买方税号格式可能不正确", true, none⟩]
  else [])

/-- SmartValidationService._validate_business_rules: each named rule runs
only when one of its fields is present.  The embedded rules are total, so
the per-rule conversion of a raised exception to a warning result has no
reachable trigger in the model. -/
def validateBusinessRules (form : List (String × String)) : List ValidationResult :=
  (if ["total_amount", "tax_amount", "net_amount"].any (formHasKey form ·) then
    validateInvoiceAmountConsistency form
  else []) ++
  (if ["invoice_date", "due_date"].any (formHasKey form ·) then
    validateDateRange form
  else []) ++
  (if ["seller_name", "seller_tax_id", "buyer_name", "buyer_tax_id"].any (formHasKey form ·) then
    validateCompanyInfo form
  else [])

/-- SmartValidationService.validate_form_data: per-field validation over
the dict in order, then cross-field checks, then business rules.  The
exception oracle gives, per field name, the text of a Python exception
escaping that field's checks, if any. -/
def validateFormData (exnOracle : String → Option String) (today : Nat)
    (form : List (String × String)) : List ValidationResult :=
  (form.map (fun kv => validateField (exnOracle kv.1) today kv.1 kv.2)).flatten ++
  validateCrossFields form ++ validateBusinessRules form

/-- A result that makes the form invalid: error severity and not valid
(the is_valid definition of get_validation_summary). -/
def isErrorResult (r : ValidationResult) : Bool :=
  r.severity = ValidationSeverity.error && !r.is_valid

/-! ## Page model and page-kind inference
(backend/services/browser/base.py) -/

inductive ElementType where
  | input | select | button | checkbox | radio | textarea | fileUpload | link
deriving DecidableEq, Repr

def ElementType.value : ElementType → String
  | .input => "input"
  | .select => "select"
  | .button => "button"
  | .checkbox => "checkbox"
  | .radio => "radio"
  | .textarea => "textarea"
  | .fileUpload => "file_upload"
  | .link => "link"

structure PageElement where
  element_type : ElementType
  selector : String
  name : String
  value : Option String := none
  required : Bool := false
  options : List String := []
  placeholder : Option String := none
deriving DecidableEq, Repr

/-- PageState without the screenshot bytes, which no claim inspects. -/
structure PageState where
  url : String
  title : String
  page_type : String
  elements : List PageElement
  html_content : Option String := none
deriving DecidableEq, Repr

def loginKeywords : List String := ["login", "登录", "password", "密码"]

def successKeywords : List String := ["success", "成功", "complete", "完成"]

def errorKeywords : List String := ["error", "错误", "fail", "失败"]

def anyKeywordIn (kws : List String) (h : String) : Bool :=
  kws.any (strContains h ·)

/-- The fillable element types shared by _determine_page_type,
_find_matching_element and the two auto-fill batches. -/
def isFillableType (t : ElementType) : Bool :=
  t = .input || t = .select || t = .textarea

/-- BaseBrowserService._determine_page_type: keyword scan over the
lower-cased markup, login before success before error, then the
form-element count. -/
def determinePageType (htmlContent : String) (elements : List PageElement) : String :=
  let h := pyLower htmlContent
  if anyKeywordIn loginKeywords h then "login"
  else if anyKeywordIn successKeywords h then "success"
  else if anyKeywordIn errorKeywords h then "error"
  else if 2 < (elements.filter (fun e => isFillableType e.element_type)).length then "form"
  else "unknown"

/-! ## Field matcher (backend/services/bpm_agent.py) -/

/-- The score _find_matching_element assigns to one element for a field
name: 100 for lower-cased equality, 80 for substring containment either
way, 60 when a whitespace token of the field name occurs in the element
name, else 0. -/
def matchScore (fieldName : String) (e : PageElement) : Nat :=
  let f := pyLower fieldName
  let n := pyLower e.name
  if f = n then 100
  else if strContains n f || strContains f n then 80
  else if (pySplitWs f).any (fun w => strContains n w) then 60
  else 0

/-- The accumulator loop of _find_matching_element: best match and best
score, replaced only on a strictly larger score. -/
def findMatchLoop (fieldName : String) :
    List PageElement → Option PageElement → Nat → Option PageElement × Nat
  | [], best, bestScore => (best, bestScore)
  | e :: rest, best, bestScore =>
    if isFillableType e.element_type then
      let s := matchScore fieldName e
      if bestScore < s then findMatchLoop fieldName rest (some e) s
      else findMatchLoop fieldName rest best bestScore
    else findMatchLoop fieldName rest best bestScore

/-- BPMAgentService._find_matching_element over the elements of the
current page state (the caller checks that a page state is loaded). -/
def findMatchingElement (elements : List PageElement) (fieldName : String) :
    Option PageElement :=
  let r := findMatchLoop fieldName elements none 0
  if 50 < r.2 then r.1 else none

/-- The specification's description of the same selection: the first
fillable element, in element order, attaining the maximal score, chosen
only when that score exceeds 50. -/
def maxMatchScore (fieldName : String) (elements : List PageElement) : Nat :=
  elements.foldl
    (fun m e => if isFillableType e.element_type then max m (matchScore fieldName e) else m) 0

def findMatchingElementSpec (elements : List PageElement) (fieldName : String) :
    Option PageElement :=
  let m := maxMatchScore fieldName elements
  if 50 < m then
    elements.find? (fun e => isFillableType e.element_type && matchScore fieldName e == m)
  else none

/-! ## Auto-fill batches (backend/services/bpm_agent.py) -/

/-- Outcome of one browser input_text / select_option call: a returned
boolean, or a raised exception with its text. -/
inductive FillOutcome where
  | ok (success : Bool)
  | exn (msg : String)

/-- The browser-driver oracle for fill calls, by selector and value. -/
def FillOracle : Type := String → String → FillOutcome

/-- One automation-driver call, for tracing which driver operations a
turn performs. -/
inductive DriverCall where
  | startBrowser
  | navigateTo (url : String)
  | getCurrentState
  | inputText (selector value : String)
  | selectOption (selector value : String)
deriving DecidableEq, Repr

structure FilledField where
  field : String
  value : String
  element : String
deriving DecidableEq, Repr

structure FailedField where
  field : String
  reason : String
deriving DecidableEq, Repr

structure FillBatchResult where
  success : Bool
  filled_fields : List FilledField
  failed_fields : List FailedField
deriving DecidableEq, Repr

/-- One iteration of the _auto_fill_form_with_data loop: the filled or
failed entry it records for one field, and the driver call it makes, if
any.  Exactly one of the two entry components is present. -/
def autoFillStep (elements : List PageElement) (fill : FillOracle) (f v : String) :
    Option FilledField × Option FailedField × List DriverCall :=
  match findMatchingElement elements f with
  | some el =>
    if el.element_type = .input || el.element_type = .textarea then
      match fill el.selector v with
      | .ok true => (some ⟨f, v, el.name⟩, none, [.inputText el.selector v])
      | .ok false => (none, some ⟨f, "填写操作失败"⟩, [.inputText el.selector v])
      | .exn e => (none, some ⟨f, "填写异常: " ++ e⟩, [.inputText el.selector v])
    else if el.element_type = .select then
      match fill el.selector v with
      | .ok true => (some ⟨f, v, el.name⟩, none, [.selectOption el.selector v])
      | .ok false => (none, some ⟨f, "填写操作失败"⟩, [.selectOption el.selector v])
      | .exn e => (none, some ⟨f, "填写异常: " ++ e⟩, [.selectOption el.selector v])
    else (none, some ⟨f, "填写操作失败"⟩, [])
  | none => (none, some ⟨f, "未找到匹配的页面元素"⟩, [])

/-- The per-field loop of _auto_fill_form_with_data, also returning the
driver calls it makes, in call order. -/
def autoFillWithDataLoop (elements : List PageElement) (fill : FillOracle) :
    List (String × String) → List FilledField × List FailedField × List DriverCall
  | [] => ([], [], [])
  | (f, v) :: rest =>
    let st := autoFillStep elements fill f v
    let prev := autoFillWithDataLoop elements fill rest
    (st.1.toList ++ prev.1, st.2.1.toList ++ prev.2.1, st.2.2 ++ prev.2.2)

/-- BPMAgentService._auto_fill_form_with_data: fill an explicit
field-to-value map against the loaded page, recording one filled or
failed entry per key; success means no failed entries. -/
def autoFillFormWithData (page : Option PageState) (fill : FillOracle)
    (data : List (String × String)) : FillBatchResult × List DriverCall :=
  match page with
  | none => (⟨false, [], [⟨"page", "页面未加载"⟩]⟩, [])
  | some ps =>
    let r := autoFillWithDataLoop ps.elements fill data
    (⟨r.2.1.isEmpty, r.1, r.2.1⟩, r.2.2)

/-- The synonym-group table of _match_field_value. -/
def fieldMappings : List (String × List String) :=
  [("name", ["name", "username", "fullname", "姓名", "用户名"]),
   ("email", ["email", "mail", "邮箱", "电子邮件"]),
   ("phone", ["phone", "tel", "mobile", "电话", "手机", "联系电话"]),
   ("address", ["address", "addr", "地址", "联系地址"]),
   ("company", ["company", "organization", "公司", "单位", "机构"]),
   ("amount", ["amount", "money", "price", "金额", "价格", "费用"]),
   ("date", ["date", "time", "日期", "时间"])]

/-- BPMAgentService._match_field_value for one extracted-data entry:
direct lower-cased key equality first, then the synonym groups (the entry
matches when its key belongs to a group one of whose keywords occurs in
the field name). -/
def matchFieldValueItem (fLower : String) (k v : String) : Option String :=
  if pyLower k = fLower then some v
  else if fieldMappings.any (fun m =>
      (m.2.map pyLower).contains (pyLower k) && m.2.any (fun kw => strContains fLower kw)) then
    some v
  else none

/-- BPMAgentService._match_field_value: first extracted-data entry, in
insertion order, that matches the element name. -/
def matchFieldValue (extracted : List (String × String)) (fieldName : String) :
    Option String :=
  extracted.findSome? (fun kv => matchFieldValueItem (pyLower fieldName) kv.1 kv.2)

structure HFilledField where
  field : String
  value : String
  etype : String
deriving DecidableEq, Repr

structure HFillResult where
  success : Bool
  filled_fields : List HFilledField
  failed_fields : List FailedField
deriving DecidableEq, Repr

/-- The per-element loop of _auto_fill_form (the heuristic batch):
elements with no or falsy matched value are skipped, not failed. -/
def autoFillHeuristicLoop (extracted : List (String × String)) (fill : FillOracle) :
    List PageElement → List HFilledField × List FailedField × List DriverCall
  | [] => ([], [], [])
  | e :: rest =>
    let (fs, ls, tr) := autoFillHeuristicLoop extracted fill rest
    if isFillableType e.element_type then
      let fv := matchFieldValue extracted e.name
      if truthyOpt fv then
        let v := fv.getD ""
        if e.element_type = .input || e.element_type = .textarea then
          match fill e.selector v with
          | .ok true => (⟨e.name, v, e.element_type.value⟩ :: fs, ls, .inputText e.selector v :: tr)
          | .ok false => (fs, ⟨e.name, "填写操作失败"⟩ :: ls, .inputText e.selector v :: tr)
          | .exn ex => (fs, ⟨e.name, "填写异常: " ++ ex⟩ :: ls, .inputText e.selector v :: tr)
        else
          match fill e.selector v with
          | .ok true => (⟨e.name, v, e.element_type.value⟩ :: fs, ls, .selectOption e.selector v :: tr)
          | .ok false => (fs, ⟨e.name, "填写操作失败"⟩ :: ls, .selectOption e.selector v :: tr)
          | .exn ex => (fs, ⟨e.name, "填写异常: " ++ ex⟩ :: ls, .selectOption e.selector v :: tr)
      else (fs, ls, tr)
    else (fs, ls, tr)

/-- BPMAgentService._auto_fill_form. -/
def autoFillForm (page : PageState) (extracted : List (String × String))
    (fill : FillOracle) : HFillResult × List DriverCall :=
  let (fs, ls, tr) := autoFillHeuristicLoop extracted fill page.elements
  (⟨ls.isEmpty, fs, ls⟩, tr)

/-! ## Intent classification (backend/services/ai/qwen_service.py) -/

inductive IntentType where
  | expenseReport | leaveRequest | purchaseRequest | contractApproval
  | formFilling | ocrProcessing | questionAnswering | dataExtraction | unknown
deriving DecidableEq, Repr

def IntentType.value : IntentType → String
  | .expenseReport => "expense_report"
  | .leaveRequest => "leave_request"
  | .purchaseRequest => "purchase_request"
  | .contractApproval => "contract_approval"
  | .formFilling => "form_filling"
  | .ocrProcessing => "ocr_processing"
  | .questionAnswering => "question_answering"
  | .dataExtraction => "data_extraction"
  | .unknown => "unknown"

/-- The IntentType(str) constructor: none where CPython raises
ValueError. -/
def parseIntentType (s : String) : Option IntentType :=
  if s = "expense_report" then some .expenseReport
  else if s = "leave_request" then some .leaveRequest
  else if s = "purchase_request" then some .purchaseRequest
  else if s = "contract_approval" then some .contractApproval
  else if s = "form_filling" then some .formFilling
  else if s = "ocr_processing" then some .ocrProcessing
  else if s = "question_answering" then some .questionAnswering
  else if s = "data_extraction" then some .dataExtraction
  else if s = "unknown" then some .unknown
  else none

structure IntentResult where
  intent : IntentType
  confidence : ℚ
  entities : List (String × String)
  context : List (String × String)
deriving DecidableEq, Repr

def expenseKeywords : List String :=
  ["报销", "发票", "差旅", "餐费", "交通费", "住宿费", "票据"]

def leaveKeywords : List String := ["请假", "休假", "年假", "病假", "事假"]

/-- QwenAIService._fallback_intent_recognition: the deterministic keyword
classifier (confidences 0.8, 0.8 and 0.1 as exact rationals). -/
def fallbackIntentRecognition (userInput : String)
    (context : List (String × String)) : IntentResult :=
  let low := pyLower userInput
  if expenseKeywords.any (strContains low ·) then
    ⟨.expenseReport, mkRat 4 5, [], context⟩
  else if leaveKeywords.any (strContains low ·) then
    ⟨.leaveRequest, mkRat 4 5, [], context⟩
  else
    ⟨.unknown, mkRat 1 10, [], context⟩

/-- The parsed JSON object of a successful language-model classification
call: the values found at the intent, confidence and entities keys. -/
structure QwenIntentReply where
  intent : Option String
  confidence : Option ℚ
  entities : Option (List (String × String))
deriving Repr

/-- QwenAIService.recognize_intent: the api argument is the outcome of
the _call_qwen_api call together with json.loads (an exception from the
call, unparsable JSON, or a response of the wrong shape is the error
case).  An invalid intent string raises ValueError inside the same try
block, so it too falls back. -/
def recognizeIntent (api : Except Unit QwenIntentReply) (userInput : String)
    (context : List (String × String)) : IntentResult :=
  match api with
  | .error _ => fallbackIntentRecognition userInput context
  | .ok j =>
    match parseIntentType (j.intent.getD "unknown") with
    | none => fallbackIntentRecognition userInput context
    | some it => ⟨it, j.confidence.getD 0, j.entities.getD [], context⟩

/-! ## Streaming turn processing (backend/services/bpm_agent.py)

One inbound turn of BPMAgentService.process_user_message_stream is
modelled as a pure function from the collaborator outcomes of that turn
(the oracles below) to the list of events the generator yields, in yield
order.  Calls to the persistence layer are modelled as non-failing record
updates; the intent-classification step is an Except value because the
service behind the abstract BaseAIService contract may raise, in which
case the outer except clause of the generator runs. -/

/-- The dict an intent handler returns: its user message, its type tag,
and the type tags of its attached actions. -/
structure HandlerResult where
  message : String
  rtype : String
  actions : List String
deriving DecidableEq, Repr

/-- One event yielded by process_user_message_stream: the intent
notification, a wrapped handler result (yielded with type message), a
streamed chunk, the stream-completion event, or an error event. -/
inductive StreamEvent where
  | intentEv (intent : String) (confidence : ℚ)
  | messageEv (result : HandlerResult)
  | messageChunk (content : String) (messageType : String)
  | messageComplete (fullMessage : String) (messageType : String) (intent : String)
  | errorEv (message : String)
deriving DecidableEq, Repr

/-- The generic message of the outer except clause of
process_user_message_stream; it does not depend on the exception. -/
def genericTurnErrorMessage : String := "抱歉，处理您的请求时出现了错误，请稍后重试。"

/-- The target_url attribute of the session object as the orchestrator
reads it: none models the attribute being absent — the UserSession model
of backend/models/user.py defines no target_url column, so the read
raises AttributeError — while some models an attribute carrying None, an
empty string or a URL. -/
structure SessionModel where
  targetUrlAttr : Option (Option String)

/-- Browser-driver oracles for one form-filling turn. -/
structure BrowserEnv where
  browserStarted : Bool
  navigateOk : Bool
  pageState : PageState
  fill : FillOracle

/-- The WebPageAnalysis returned by ai_service.analyze_webpage (the qwen
implementation catches its own failures and returns a default, so the
call is total). -/
structure Analysis where
  required_fields : List String

/-- BPMAgentService._handle_form_filling, also returning the
automation-driver calls it performs, in order.  An absent target_url
attribute raises AttributeError, which the handler's except clause
converts to the generic error result. -/
def handleFormFilling (session : SessionModel) (benv : BrowserEnv)
    (analysis : Analysis) (extracted : List (String × String)) :
    HandlerResult × List DriverCall :=
  match session.targetUrlAttr with
  | none => (⟨"表单填写过程中出现错误，请稍后重试。", "error", []⟩, [])
  | some tu =>
    if !truthyOpt tu then
      (⟨"请先提供要填写的表单页面URL。例如：请帮我填写 https://example.com/form",
        "request_url", ["request_input"]⟩, [])
    else
      let url := tu.getD ""
      let pre := (if !benv.browserStarted then [DriverCall.startBrowser] else []) ++
        [DriverCall.navigateTo url]
      if !benv.navigateOk then
        (⟨"无法打开页面 " ++ url ++ "，请检查URL是否正确。", "error", []⟩, pre)
      else
        let pre := pre ++ [DriverCall.getCurrentState]
        let missing := analysis.required_fields.filter (fun f => !formHasKey extracted f)
        if !analysis.required_fields.isEmpty && !missing.isEmpty then
          (⟨"我已经分析了页面：" ++ benv.pageState.title ++ "。\n需要填写以下信息：" ++
              String.intercalate ", " missing ++ "。\n请提供这些信息，我将帮您自动填写。",
            "request_data", ["page_analysis"]⟩, pre)
        else
          let (fr, tr) := autoFillForm benv.pageState extracted benv.fill
          if fr.success then
            (⟨"表单填写完成！已成功填写 " ++ toString fr.filled_fields.length ++ " 个字段。",
              "success", ["form_filled"]⟩, pre ++ tr)
          else
            (⟨"表单填写部分完成。成功填写 " ++ toString fr.filled_fields.length ++ " 个字段，" ++
                toString fr.failed_fields.length ++ " 个字段填写失败。",
              "partial_success", ["form_partially_filled"]⟩, pre ++ tr)

/-- BPMAgentService._handle_ocr_request: a constant short-circuit
requesting an upload. -/
def handleOcrRequest : HandlerResult :=
  ⟨"请上传需要识别的发票或文档图片，我将为您提取其中的信息。", "request_upload",
   ["request_upload"]⟩

/-- BPMAgentService._handle_data_extraction.  The extractedInfo argument
is the result of _extract_structured_data on the message (that regex
extractor is total — it returns an empty dict on any internal failure —
and its internals are not under any claim, so it enters as an oracle). -/
def handleDataExtraction (extractedInfo : List (String × String))
    (currentPage : Option PageState) (fill : FillOracle) :
    HandlerResult × List DriverCall :=
  if extractedInfo.isEmpty then
    (⟨"未能从您的消息中提取到结构化数据。请提供更具体的信息，例如：姓名：张三，电话：13800138000",
      "request_clarification", ["request_structured_data"]⟩, [])
  else
    let keys := String.intercalate ", " (extractedInfo.map (·.1))
    match currentPage with
    | some ps =>
      let (fr, tr) := autoFillFormWithData (some ps) fill extractedInfo
      if fr.success then
        (⟨"已提取并填写数据：" ++ keys ++ "。表单填写成功！", "success",
          ["data_extracted_and_filled"]⟩, tr)
      else
        (⟨"已提取数据：" ++ keys ++ "。但表单填写遇到问题，请检查页面状态。",
          "partial_success", ["data_extracted"]⟩, tr)
    | none =>
      (⟨"已提取数据：" ++ keys ++ "。请先打开要填写的表单页面。", "data_stored",
        ["data_extracted"]⟩, [])

/-- The outcome of one ai_service.generate_response_stream call: the
chunks it yields, and, when exn is set, the exception it then raises
instead of finishing (a raise after k chunks is the k-chunk instance). -/
structure AiStreamEnv where
  chunks : List String
  exn : Option String

/-- BPMAgentService._handle_question_answering_stream: relay the chunks,
then one completion event carrying the concatenation, with the inner
except clause turning a raised exception into one error event. -/
def handleQuestionAnsweringStream (ir : IntentResult) (ai : AiStreamEnv) :
    List StreamEvent :=
  (ai.chunks.map (fun c => StreamEvent.messageChunk c "question_answer")) ++
  match ai.exn with
  | some _ => [.errorEv "抱歉，我暂时无法回答您的问题。请稍后重试。"]
  | none => [.messageComplete (String.join ai.chunks) "question_answer" ir.intent.value]

/-- BPMAgentService._handle_general_conversation_stream, the default
branch for all remaining intents. -/
def handleGeneralConversationStream (ir : IntentResult) (ai : AiStreamEnv) :
    List StreamEvent :=
  (ai.chunks.map (fun c => StreamEvent.messageChunk c "conversation")) ++
  match ai.exn with
  | some _ => [.errorEv "我正在学习如何更好地理解您的需求。请尝试更具体地描述您需要的帮助。"]
  | none => [.messageComplete (String.join ai.chunks) "conversation" ir.intent.value]

/-- All collaborator outcomes of one streaming turn. -/
structure TurnEnv where
  intentOutcome : Except String IntentResult
  session : SessionModel
  browser : BrowserEnv
  analysis : Analysis
  extracted : List (String × String)
  extractedInfo : List (String × String)
  currentPage : Option PageState
  ai : AiStreamEnv

/-- BPMAgentService._handle_intent_stream: dispatch on the classified
intent.  The form-filling, OCR and data-extraction branches wrap their
handler's result dict in a single message-typed event; the
question-answering and default branches stream. -/
def handleIntentStream (ir : IntentResult) (env : TurnEnv) : List StreamEvent :=
  match ir.intent with
  | .formFilling =>
    [.messageEv (handleFormFilling env.session env.browser env.analysis env.extracted).1]
  | .ocrProcessing => [.messageEv handleOcrRequest]
  | .questionAnswering => handleQuestionAnsweringStream ir env.ai
  | .dataExtraction =>
    [.messageEv (handleDataExtraction env.extractedInfo env.currentPage env.browser.fill).1]
  | _ => handleGeneralConversationStream ir env.ai

/-- BPMAgentService.process_user_message_stream, as the list of yielded
events: on a pre-dispatch exception (the classification call under the
abstract service contract, modelled by the error case) the outer except
clause yields one generic error event; otherwise the intent event
followed by the dispatched handler's events. -/
def processUserMessageStream (env : TurnEnv) : List StreamEvent :=
  match env.intentOutcome with
  | .error _ => [.errorEv genericTurnErrorMessage]
  | .ok ir => .intentEv ir.intent.value ir.confidence :: handleIntentStream ir env

/-! ## Task Record and the outermost exception boundary
(backend/models/user.py and the except clause of
process_user_message_stream) -/

/-- The TaskHistory columns the streaming turn touches: the task_status
column set by the constructor, the status alias column (default pending)
that the except clause assigns, and the bmp_response column. -/
structure TaskRecord where
  task_type : String
  task_status : String
  status : String
  bmp_response : Option String
deriving DecidableEq, Repr

/-- The record process_user_message_stream creates for a turn:
TaskHistory(task_type=message_processing, task_status=processing), the
status column keeping its pending default. -/
def initialTaskRecord : TaskRecord :=
  ⟨"message_processing", "processing", "pending", none⟩

/-- The outermost boundary of process_user_message_stream around an
arbitrary dispatched handler: the handler's yielded events and, when an
uncaught exception with text e escapes it, the except clause appends one
generic error event and marks the in-flight record failed.  The record
argument is the record state at the moment the exception escapes. -/
def processTurnWithHandler (ir : IntentResult) (handlerEvents : List StreamEvent)
    (handlerExn : Option String) (rec : TaskRecord) : List StreamEvent × TaskRecord :=
  match handlerExn with
  | none => (.intentEv ir.intent.value ir.confidence :: handlerEvents, rec)
  | some e =>
    (.intentEv ir.intent.value ir.confidence :: (handlerEvents ++ [.errorEv genericTurnErrorMessage]),
     { rec with status := "failed", bmp_response := some ("处理失败: " ++ e) })

/-- The claim's notion of a terminal event (message_complete or error). -/
def isCompleteOrError : StreamEvent → Bool
  | .messageComplete _ _ _ => true
  | .errorEv _ => true
  | _ => false

/-- A turn-terminating event as the code emits one: the message-typed
wrapper of the non-streaming branches, the completion event of the
streaming branches, or an error event. -/
def isTerminalEvent : StreamEvent → Bool
  | .messageEv _ => true
  | .messageComplete _ _ _ => true
  | .errorEv _ => true
  | _ => false

/-! ## Concrete instances used by the counterexamples and witnesses -/

def samplePageState : PageState :=
  ⟨"https://example.com/form", "示例表单", "form", [], none⟩

def sampleFillOracle : FillOracle := fun _ _ => .ok true

def sampleBrowserEnv : BrowserEnv := ⟨false, true, samplePageState, sampleFillOracle⟩

/-- A form-filling turn on a fresh session: classification succeeds with
intent form_filling, no target URL is available, nothing extracted. -/
def sampleFormFillingTurn : TurnEnv :=
  ⟨.ok ⟨.formFilling, mkRat 9 10, [], []⟩, ⟨some none⟩, sampleBrowserEnv, ⟨[]⟩,
   [], [], none, ⟨[], none⟩⟩

end BpmAgent

namespace BpmAgent

/-! ## Theorems -/

theorem strContains_characterization (hay needle : String) :
    strContains hay needle = true ↔ needle.data <:+: hay.data := by
  unfold strContains
  rw [List.any_eq_true]
  constructor
  · rintro ⟨t, ht, hp⟩
    rw [List.mem_tails] at ht
    rw [List.isPrefixOf_iff_prefix] at hp
    exact List.infix_iff_prefix_suffix.mpr ⟨t, hp, ht⟩
  · intro h
    obtain ⟨t, hp, ht⟩ := List.infix_iff_prefix_suffix.mp h
    exact ⟨t, (List.mem_tails _ _).mpr ht, List.isPrefixOf_iff_prefix.mpr hp⟩

theorem strContains_pyLower (hay kw : String) (hk : kw.data.map Char.toLower = kw.data)
    (h : strContains hay kw = true) : strContains (pyLower hay) kw = true := by
  rw [strContains_characterization] at h ⊢
  have h2 := h.map Char.toLower
  show kw.data <:+: (pyLower hay).data
  have hd : (pyLower hay).data = hay.data.map Char.toLower := rfl
  rw [hd, ← hk]
  exact h2

/-- Claim C4: on total_amount 1130.00 and tax_amount 130.00 the
validation engine produces no error-severity invalid result when
net_amount is 1000.00, and exactly one error result — the
amount-consistency business rule, with suggested value 1000.00 — when
net_amount is 900.00, for any current date. -/
theorem claim4_amount_consistency_rule (today : Nat) :
    (validateFormData (fun _ => none) today
        [("total_amount", "1130.00"), ("tax_amount", "130.00"), ("net_amount", "1000.00")]).filter
        isErrorResult = [] ∧
    ((validateFormData (fun _ => none) today
        [("total_amount", "1130.00"), ("tax_amount", "130.00"), ("net_amount", "900.00")]).filter
        isErrorResult).map (fun r => (r.field, r.validation_type, r.suggested_value)) =
      [("amount_consistency", ValidationType.business, some "1000.00")] :=
  ⟨rfl, rfl⟩

/-- Claim C5: page-kind inference scans the lower-cased markup with
login keywords first, then success keywords, then error keywords, then
classifies as form exactly when more than two fillable elements are
present, else unknown; in particular markup containing the substring
login is classified login whatever else it contains. -/
theorem claim5_page_kind_priority (html : String) (elements : List PageElement) :
    (strContains html "login" = true → determinePageType html elements = "login") ∧
    (anyKeywordIn loginKeywords (pyLower html) = true →
      determinePageType html elements = "login") ∧
    (anyKeywordIn loginKeywords (pyLower html) = false →
      anyKeywordIn successKeywords (pyLower html) = true →
      determinePageType html elements = "success") ∧
    (anyKeywordIn loginKeywords (pyLower html) = false →
      anyKeywordIn successKeywords (pyLower html) = false →
      anyKeywordIn errorKeywords (pyLower html) = true →
      determinePageType html elements = "error") ∧
    (anyKeywordIn loginKeywords (pyLower html) = false →
      anyKeywordIn successKeywords (pyLower html) = false →
      anyKeywordIn errorKeywords (pyLower html) = false →
      determinePageType html elements =
        if 2 < (elements.filter (fun e => isFillableType e.element_type)).length then "form"
        else "unknown") := by
  refine ⟨?_, ?_, ?_, ?_, ?_⟩
  · intro h
    have hl : anyKeywordIn loginKeywords (pyLower html) = true := by
      unfold anyKeywordIn
      rw [List.any_eq_true]
      exact ⟨"login", by decide, strContains_pyLower html "login" rfl h⟩
    simp [determinePageType, hl]
  · intro hl
    simp [determinePageType, hl]
  · intro hl hs
    simp [determinePageType, hl, hs]
  · intro hl hs he
    simp [determinePageType, hl, hs, he]
  · intro hl hs he
    simp [determinePageType, hl, hs, he]

/-- Witness for claim C5 at a concrete page: markup containing both
login and success is classified login. -/
theorem claim5_page_kind_witness :
    determinePageType "my login was a success" [] = "login" :=
  (claim5_page_kind_priority "my login was a success" []).1 rfl

/-- Claim C6, behaviour at the failing input: on a session object whose
target_url attribute is absent — as it is for every UserSession row,
since the model declares no such column — a form-filling turn returns
the generic error outcome, not the request_url outcome, though still
with no automation-driver call; had the attribute been present and
unset, the dead branch below it would return the request_url outcome
with no automation-driver call, as the claim states. -/
theorem claim6_form_filling_without_url (benv : BrowserEnv) (analysis : Analysis)
    (extracted : List (String × String)) :
    handleFormFilling ⟨none⟩ benv analysis extracted =
      (⟨"表单填写过程中出现错误，请稍后重试。", "error", []⟩, []) ∧
    handleFormFilling ⟨some none⟩ benv analysis extracted =
      (⟨"请先提供要填写的表单页面URL。例如：请帮我填写 https://example.com/form",
        "request_url", ["request_input"]⟩, []) :=
  ⟨rfl, rfl⟩

/-- Claim C7: when an uncaught exception escapes the dispatched intent
handler, the outermost boundary appends exactly one generic error event
after the events already yielded, marks the in-flight Task Record's
status column failed, and the emitted events do not depend on the
exception text (so the user-visible message never carries it). -/
theorem claim7_outer_exception_boundary (ir : IntentResult)
    (handlerEvents : List StreamEvent) (e e2 : String) (rec : TaskRecord) :
    (processTurnWithHandler ir handlerEvents (some e) rec).1 =
      .intentEv ir.intent.value ir.confidence ::
        (handlerEvents ++ [.errorEv genericTurnErrorMessage]) ∧
    (processTurnWithHandler ir handlerEvents (some e) rec).2.status = "failed" ∧
    (processTurnWithHandler ir handlerEvents (some e) rec).1 =
      (processTurnWithHandler ir handlerEvents (some e2) rec).1 :=
  ⟨rfl, rfl, rfl⟩

/-- Claim C2, counterexample: a successful classification with
confidence 0 — below every positive threshold — is used as returned;
the keyword fallback is not applied (it would classify this message as
unknown), so no confidence threshold triggers the fallback. -/
theorem claim2_counterexample :
    recognizeIntent (.ok ⟨some "expense_report", some 0, some []⟩) "hello" [] =
      ⟨.expenseReport, 0, [], []⟩ ∧
    fallbackIntentRecognition "hello" [] = ⟨.unknown, mkRat 1 10, [], []⟩ ∧
    recognizeIntent (.ok ⟨some "expense_report", some 0, some []⟩) "hello" [] ≠
      fallbackIntentRecognition "hello" [] := by
  refine ⟨rfl, rfl, ?_⟩
  intro h
  have h2 : IntentType.expenseReport = IntentType.unknown := congrArg IntentResult.intent h
  exact absurd h2 (by decide)

/-- Claim C2, amended: the deterministic keyword fallback is applied
exactly when the classification call raises or its reply cannot be
turned into a valid intent; a successfully parsed reply is used as-is,
whatever its confidence, and in every case a result is returned (the
failure is never surfaced). -/
theorem claim2_fallback_only_on_exception (m : String) (c : List (String × String))
    (j : QwenIntentReply) :
    recognizeIntent (.error ()) m c = fallbackIntentRecognition m c ∧
    (parseIntentType (j.intent.getD "unknown") = none →
      recognizeIntent (.ok j) m c = fallbackIntentRecognition m c) ∧
    (∀ it, parseIntentType (j.intent.getD "unknown") = some it →
      recognizeIntent (.ok j) m c = ⟨it, j.confidence.getD 0, j.entities.getD [], c⟩) := by
  refine ⟨rfl, ?_, ?_⟩
  · intro h
    simp only [recognizeIntent]
    rw [h]
  · intro it h
    simp only [recognizeIntent]
    rw [h]

/-- Witness for claim C2 at concrete replies: an invalid intent string
falls back, and a valid reply is used as returned. -/
theorem claim2_fallback_witness :
    recognizeIntent (.ok ⟨some "bogus", some (mkRat 99 100), none⟩) "我要报销" [] =
      fallbackIntentRecognition "我要报销" [] ∧
    recognizeIntent (.ok ⟨some "expense_report", some 0, some []⟩) "hi" [] =
      ⟨.expenseReport, 0, [], []⟩ :=
  ⟨(claim2_fallback_only_on_exception "我要报销" [] _).2.1 rfl,
   (claim2_fallback_only_on_exception "hi" [] _).2.2 .expenseReport rfl⟩

/-- Claim C8: for a field of inferred type phone whose stripped value is
eleven digits not starting with 1, the suggestion pass returns a valid,
warning-severity result whose suggestion replaces the first digit with 1,
and that result is among the field's validation results. -/
theorem claim8_phone_suggestion (today : Nat) (fieldName value : String)
    (hty : inferFieldType fieldName = "phone")
    (hlen : (pyStrip value).data.length = 11)
    (hdig : pyIsDigit (pyStrip value) = true)
    (h1 : strStartsWith (pyStrip value) "1" = false) :
    generateSmartSuggestion fieldName value =
      some ⟨fieldName, .format, .warning, "手机号通常以1开头，请确认是否正确", true,
        some ("1" ++ ⟨(pyStrip value).data.drop 1⟩)⟩ ∧
    (⟨fieldName, .format, .warning, "手机号通常以1开头，请确认是否正确", true,
        some ("1" ++ ⟨(pyStrip value).data.drop 1⟩)⟩ : ValidationResult) ∈
      validateField none today fieldName value := by
  have hsugg : generateSmartSuggestion fieldName value =
      some ⟨fieldName, .format, .warning, "手机号通常以1开头，请确认是否正确", true,
        some ("1" ++ ⟨(pyStrip value).data.drop 1⟩)⟩ := by
    simp only [generateSmartSuggestion, hty, hlen, hdig, h1]
    simp
  refine ⟨hsugg, ?_⟩
  have hne : strFalsy value = false := by
    cases hd : value.data with
    | nil =>
      exfalso
      have hs : (pyStrip value).data = [] := by simp [pyStrip, hd]
      rw [hs] at hlen
      simp at hlen
    | cons a l => simp [strFalsy, hd]
  simp only [validateField, hne, Bool.and_false, Bool.false_eq_true, if_false, hsugg]
  simp

/-- Witness for claim C8 at the concrete input of the specification:
value 23800138000 on field phone suggests 13800138000. -/
theorem claim8_phone_suggestion_witness :
    generateSmartSuggestion "phone" "23800138000" =
      some ⟨"phone", .format, .warning, "手机号通常以1开头，请确认是否正确", true,
        some "13800138000"⟩ ∧
    (⟨"phone", .format, .warning, "手机号通常以1开头，请确认是否正确", true,
        some "13800138000"⟩ : ValidationResult) ∈ validateField none 739000 "phone" "23800138000" :=
  claim8_phone_suggestion 739000 "phone" "23800138000" rfl rfl rfl rfl

/-- Characterization of the best-match accumulator loop of
_find_matching_element: the final score is the running maximum of the
fillable elements' scores, it never decreases, and whenever it exceeds
the starting score the selected element is the first fillable element
attaining it (a tie never replaces the incumbent). -/
theorem findMatchLoop_spec (fieldName : String) (l : List PageElement) :
    ∀ (b : Option PageElement) (s : Nat),
      (findMatchLoop fieldName l b s).2 =
        l.foldl
          (fun m e => if isFillableType e.element_type then max m (matchScore fieldName e) else m)
          s ∧
      s ≤ (findMatchLoop fieldName l b s).2 ∧
      (s < (findMatchLoop fieldName l b s).2 →
        (findMatchLoop fieldName l b s).1 =
          l.find? (fun e => isFillableType e.element_type &&
            matchScore fieldName e == (findMatchLoop fieldName l b s).2)) ∧
      (¬ s < (findMatchLoop fieldName l b s).2 → (findMatchLoop fieldName l b s).1 = b) := by
  induction l with
  | nil =>
    intro b s
    exact ⟨rfl, le_refl s, fun h => absurd h (lt_irrefl s), fun _ => rfl⟩
  | cons e rest ih =>
    intro b s
    cases hf : isFillableType e.element_type with
    | false =>
      have hstep : findMatchLoop fieldName (e :: rest) b s = findMatchLoop fieldName rest b s := by
        simp [findMatchLoop, hf]
      obtain ⟨ih1, ih2, ih3, ih4⟩ := ih b s
      rw [hstep]
      refine ⟨?_, ih2, ?_, ih4⟩
      · rw [List.foldl_cons, if_neg (by simp [hf])]
        exact ih1
      · intro hs
        rw [ih3 hs]
        have hpe : (isFillableType e.element_type &&
            matchScore fieldName e == (findMatchLoop fieldName rest b s).2) = false := by
          simp [hf]
        simp [List.find?, hpe]
    | true =>
      by_cases hlt : s < matchScore fieldName e
      · have hstep : findMatchLoop fieldName (e :: rest) b s =
            findMatchLoop fieldName rest (some e) (matchScore fieldName e) := by
          simp [findMatchLoop, hf, hlt]
        obtain ⟨ih1, ih2, ih3, ih4⟩ := ih (some e) (matchScore fieldName e)
        rw [hstep]
        have hmax : max s (matchScore fieldName e) = matchScore fieldName e :=
          Nat.max_eq_right (le_of_lt hlt)
        refine ⟨?_, ?_, ?_, ?_⟩
        · rw [List.foldl_cons, if_pos (by simp [hf]), hmax]
          exact ih1
        · exact le_trans (le_of_lt hlt) ih2
        · intro _
          by_cases hsc : matchScore fieldName e <
              (findMatchLoop fieldName rest (some e) (matchScore fieldName e)).2
          · rw [ih3 hsc]
            have hpe : (isFillableType e.element_type && matchScore fieldName e ==
                (findMatchLoop fieldName rest (some e) (matchScore fieldName e)).2) = false := by
              simp [hf]
              omega
            simp [List.find?, hpe]
          · have heq : matchScore fieldName e =
                (findMatchLoop fieldName rest (some e) (matchScore fieldName e)).2 := by
              omega
            rw [ih4 hsc]
            have hpe : (isFillableType e.element_type && matchScore fieldName e ==
                (findMatchLoop fieldName rest (some e) (matchScore fieldName e)).2) = true := by
              rw [hf, ← heq]
              simp
            simp [List.find?, hpe]
        · intro h
          exact absurd (lt_of_lt_of_le hlt ih2) h
      · have hstep : findMatchLoop fieldName (e :: rest) b s = findMatchLoop fieldName rest b s := by
          simp [findMatchLoop, hf, hlt]
        obtain ⟨ih1, ih2, ih3, ih4⟩ := ih b s
        rw [hstep]
        have hmax : max s (matchScore fieldName e) = s := Nat.max_eq_left (le_of_not_lt hlt)
        refine ⟨?_, ih2, ?_, ih4⟩
        · rw [List.foldl_cons, if_pos (by simp [hf]), hmax]
          exact ih1
        · intro hs
          rw [ih3 hs]
          have hpe : (isFillableType e.element_type &&
              matchScore fieldName e == (findMatchLoop fieldName rest b s).2) = false := by
            simp [hf]
            omega
          simp [List.find?, hpe]

/-- Claim C3: element selection as _find_matching_element computes it
coincides with the specified selection — the first fillable element, in
element order, attaining the maximal score of the stated scoring table,
selected only when that score strictly exceeds 50 — and any selected
element is fillable with score above 50.  Determinism is immediate: the
selection is a pure function of the element list and field name. -/
theorem claim3_matcher_first_best (elements : List PageElement) (fieldName : String) :
    findMatchingElement elements fieldName = findMatchingElementSpec elements fieldName ∧
    (∀ e, findMatchingElement elements fieldName = some e →
      isFillableType e.element_type = true ∧ 50 < matchScore fieldName e) := by
  obtain ⟨h1, h2, h3, h4⟩ := findMatchLoop_spec fieldName elements none 0
  have hmain : findMatchingElement elements fieldName = findMatchingElementSpec elements fieldName := by
    unfold findMatchingElement findMatchingElementSpec maxMatchScore
    rw [← h1]
    by_cases h50 : 50 < (findMatchLoop fieldName elements none 0).2
    · rw [if_pos h50, if_pos h50]
      exact h3 (by omega)
    · rw [if_neg h50, if_neg h50]
  refine ⟨hmain, ?_⟩
  intro e he
  rw [hmain] at he
  unfold findMatchingElementSpec at he
  by_cases h50 : 50 < maxMatchScore fieldName elements
  · rw [if_pos h50] at he
    have hp := List.find?_some he
    have hfill : isFillableType e.element_type = true := by
      cases hq : isFillableType e.element_type
      · rw [hq] at hp
        simp at hp
      · rfl
    refine ⟨hfill, ?_⟩
    rw [hfill] at hp
    simp at hp
    omega
  · rw [if_neg h50] at he
    cases he

/-- Witness for claim C3 at a concrete page: among two fillable
elements the exact match is selected, it is fillable, and its score
exceeds 50. -/
theorem claim3_matcher_witness :
    findMatchingElement
        [⟨.input, "#u", "username", none, false, [], none⟩,
         ⟨.input, "#n", "name", none, false, [], none⟩] "username" =
      findMatchingElementSpec
        [⟨.input, "#u", "username", none, false, [], none⟩,
         ⟨.input, "#n", "name", none, false, [], none⟩] "username" ∧
    isFillableType ElementType.input = true ∧
    50 < matchScore "username" ⟨.input, "#u", "username", none, false, [], none⟩ := by
  have h := claim3_matcher_first_best
    [⟨.input, "#u", "username", none, false, [], none⟩,
     ⟨.input, "#n", "name", none, false, [], none⟩] "username"
  exact ⟨h.1, h.2 ⟨.input, "#u", "username", none, false, [], none⟩ rfl⟩

/-- One auto-fill iteration records the field name in exactly one of the
filled or failed entries. -/
theorem autoFillStep_field_partition (elements : List PageElement) (fill : FillOracle)
    (f v : String) :
    ((autoFillStep elements fill f v).1.map FilledField.field).toList ++
      ((autoFillStep elements fill f v).2.1.map FailedField.field).toList = [f] := by
  cases hm : findMatchingElement elements f with
  | none => simp [autoFillStep, hm]
  | some el =>
    cases hT : el.element_type <;>
      (try simp [autoFillStep, hm, hT]) <;>
      (cases hfo : fill el.selector v with
        | ok b => cases b <;> simp [autoFillStep, hm, hT, hfo]
        | exn e2 => simp [autoFillStep, hm, hT, hfo])

/-- An unmatched field is recorded as failed with the no-element
reason. -/
theorem autoFillStep_unmatched (elements : List PageElement) (fill : FillOracle)
    (f v : String) (h : findMatchingElement elements f = none) :
    (autoFillStep elements fill f v).2.1 = some ⟨f, "未找到匹配的页面元素"⟩ := by
  unfold autoFillStep
  rw [h]

/-- The auto-fill loop partitions the input keys between the filled and
failed entries, and records every unmatched key as failed. -/
theorem autoFillWithDataLoop_partition (elements : List PageElement) (fill : FillOracle)
    (data : List (String × String)) :
    ((autoFillWithDataLoop elements fill data).1.map FilledField.field ++
      (autoFillWithDataLoop elements fill data).2.1.map FailedField.field).Perm
      (data.map Prod.fst) ∧
    (∀ f v, (f, v) ∈ data → findMatchingElement elements f = none →
      (⟨f, "未找到匹配的页面元素"⟩ : FailedField) ∈
        (autoFillWithDataLoop elements fill data).2.1) := by
  induction data with
  | nil => exact ⟨List.Perm.refl [], by intro f v h; cases h⟩
  | cons fv rest ih =>
    obtain ⟨f, v⟩ := fv
    obtain ⟨ihp, ihm⟩ := ih
    have hstep : autoFillWithDataLoop elements fill ((f, v) :: rest) =
        ((autoFillStep elements fill f v).1.toList ++ (autoFillWithDataLoop elements fill rest).1,
         (autoFillStep elements fill f v).2.1.toList ++
           (autoFillWithDataLoop elements fill rest).2.1,
         (autoFillStep elements fill f v).2.2 ++
           (autoFillWithDataLoop elements fill rest).2.2) := rfl
    have hshape := autoFillStep_field_partition elements fill f v
    constructor
    · rw [hstep]
      simp only [List.map_cons, List.map_append]
      cases hs1 : (autoFillStep elements fill f v).1 with
      | none =>
        cases hs2 : (autoFillStep elements fill f v).2.1 with
        | none =>
          rw [hs1, hs2] at hshape
          simp at hshape
        | some y =>
          rw [hs1, hs2] at hshape
          simp at hshape
          simp only [Option.toList_none, Option.toList_some, List.map_nil, List.map_cons,
            List.nil_append, List.singleton_append, List.cons_append, hshape]
          exact List.perm_middle.trans (ihp.cons f)
      | some x =>
        cases hs2 : (autoFillStep elements fill f v).2.1 with
        | none =>
          rw [hs1, hs2] at hshape
          simp at hshape
          simp only [Option.toList_none, Option.toList_some, List.map_nil, List.map_cons,
            List.nil_append, List.append_nil, List.singleton_append, List.cons_append, hshape]
          exact ihp.cons f
        | some y =>
          rw [hs1, hs2] at hshape
          simp at hshape
    · intro g w hmem hnone
      rw [hstep]
      simp only [List.mem_append]
      rcases List.mem_cons.mp hmem with heq | hrest
      · left
        have hg : g = f := congrArg Prod.fst heq
        rw [hg] at hnone ⊢
        rw [autoFillStep_unmatched elements fill f v hnone]
        simp
      · right
        exact ihm g w hrest hnone

/-- Claim C9: on a loaded page, the auto-fill batch accounts for every
input key in exactly one of the filled or failed lists (an unmatched key
becomes a failed entry with its reason), and the success flag is true
exactly when the failed list is empty. -/
theorem claim9_autofill_accounts_all_fields (ps : PageState) (fill : FillOracle)
    (data : List (String × String)) :
    ((autoFillFormWithData (some ps) fill data).1.filled_fields.map FilledField.field ++
      (autoFillFormWithData (some ps) fill data).1.failed_fields.map FailedField.field).Perm
      (data.map Prod.fst) ∧
    ((autoFillFormWithData (some ps) fill data).1.success = true ↔
      (autoFillFormWithData (some ps) fill data).1.failed_fields = []) ∧
    (∀ f v, (f, v) ∈ data → findMatchingElement ps.elements f = none →
      (⟨f, "未找到匹配的页面元素"⟩ : FailedField) ∈
        (autoFillFormWithData (some ps) fill data).1.failed_fields) := by
  obtain ⟨hp, hm⟩ := autoFillWithDataLoop_partition ps.elements fill data
  exact ⟨hp, by simp [autoFillFormWithData, List.isEmpty_iff], hm⟩

/-- Witness for claim C9 at a concrete batch: one key, no matching
element, so the key is failed with the no-element reason and success is
equivalent to the failed list being empty. -/
theorem claim9_autofill_witness :
    (⟨"x", "未找到匹配的页面元素"⟩ : FailedField) ∈
      (autoFillFormWithData (some samplePageState) sampleFillOracle [("x", "1")]).1.failed_fields ∧
    ((autoFillFormWithData (some samplePageState) sampleFillOracle [("x", "1")]).1.success = true ↔
      (autoFillFormWithData (some samplePageState) sampleFillOracle
          [("x", "1")]).1.failed_fields = []) := by
  have h := claim9_autofill_accounts_all_fields samplePageState sampleFillOracle [("x", "1")]
  exact ⟨h.2.2 "x" "1" (by simp) rfl, h.2.1⟩

/-- Claim C10: per-field validation always returns a result list — an
exception escaping a field's checks becomes a single error-severity
result for that field — and each field's results reach the form-level
output whatever the exception oracle does on the other fields, so one
field's failure never suppresses the others' validation. -/
theorem claim10_validate_field_total (o : String → Option String) (today : Nat)
    (form : List (String × String)) (f v e : String) :
    validateField (some e) today f v =
      [⟨f, .format, .error, "验证过程中出现错误: " ++ e, false, none⟩] ∧
    (∀ r ∈ validateField (some e) today f v,
      r.severity = ValidationSeverity.error ∧ r.is_valid = false) ∧
    ((f, v) ∈ form → ∀ r ∈ validateField (o f) today f v,
      r ∈ validateFormData o today form) := by
  refine ⟨rfl, ?_, ?_⟩
  · intro r hr
    simp only [validateField, List.mem_singleton] at hr
    rw [hr]
    exact ⟨rfl, rfl⟩
  · intro hmem r hr
    unfold validateFormData
    rw [List.append_assoc, List.mem_append]
    left
    rw [List.mem_flatten]
    refine ⟨validateField (o f) today f v, ?_, hr⟩
    rw [List.mem_map]
    exact ⟨(f, v), hmem, rfl⟩

/-- Witness for claim C10 at a concrete form: the name field's checks
raise while the email field is validated normally, and both fields'
results appear in the form-level output. -/
theorem claim10_validate_field_witness :
    validateField (some "boom") 739000 "name" "张三" =
      [⟨"name", .format, .error, "验证过程中出现错误: boom", false, none⟩] ∧
    (⟨"name", .format, .error, "验证过程中出现错误: boom", false, none⟩ : ValidationResult) ∈
      validateFormData (fun k => if k == "name" then some "boom" else none) 739000
        [("name", "张三"), ("email", "a@b.cc")] := by
  have h := claim10_validate_field_total
    (fun k => if k == "name" then some "boom" else none) 739000
    [("name", "张三"), ("email", "a@b.cc")] "name" "张三" "boom"
  refine ⟨h.1, ?_⟩
  exact h.2.2 (by simp) _ (List.mem_cons_self _ _)

/-- Claim C1, counterexample: a form-filling turn emits the intent event
followed by one message-typed event — no message_complete and no error
event at all — so the stated terminal-event kinds are wrong for the
non-streaming branches. -/
theorem claim1_counterexample :
    processUserMessageStream sampleFormFillingTurn =
      [.intentEv "form_filling" (mkRat 9 10),
       .messageEv ⟨"请先提供要填写的表单页面URL。例如：请帮我填写 https://example.com/form",
         "request_url", ["request_input"]⟩] ∧
    (processUserMessageStream sampleFormFillingTurn).countP isCompleteOrError = 0 :=
  ⟨rfl, rfl⟩

/-- Events yielded while streaming chunks are never terminal. -/
theorem chunks_not_terminal (chunks : List String) (mt : String) :
    ((chunks.map (fun c => StreamEvent.messageChunk c mt)).all
      (fun x => !isTerminalEvent x)) = true := by
  rw [List.all_eq_true]
  intro x hx
  rw [List.mem_map] at hx
  obtain ⟨c, _, rfl⟩ := hx
  rfl

/-- Claim C1, amended: for every turn and every collaborator behaviour,
the emitted event sequence ends with exactly one terminal event — the
message-typed wrapper for the form-filling, OCR and data-extraction
branches, message_complete or error for the streaming branches, error
alone on a pre-dispatch failure — and every earlier event is
non-terminal. -/
theorem claim1_one_terminal_last (env : TurnEnv) :
    ∃ pre t, processUserMessageStream env = pre ++ [t] ∧ isTerminalEvent t = true ∧
      pre.all (fun x => !isTerminalEvent x) = true := by
  obtain ⟨io, sess, benv, an, ex, exi, cp, ai⟩ := env
  cases io with
  | error e => exact ⟨[], .errorEv genericTurnErrorMessage, rfl, rfl, rfl⟩
  | ok ir =>
    obtain ⟨it, conf, ents, ctx⟩ := ir
    obtain ⟨chunks, aexn⟩ := ai
    cases it
    case formFilling =>
      exact ⟨[.intentEv IntentType.formFilling.value conf],
        .messageEv (handleFormFilling sess benv an ex).1, rfl, rfl, rfl⟩
    case ocrProcessing =>
      exact ⟨[.intentEv IntentType.ocrProcessing.value conf], .messageEv handleOcrRequest,
        rfl, rfl, rfl⟩
    case dataExtraction =>
      exact ⟨[.intentEv IntentType.dataExtraction.value conf],
        .messageEv (handleDataExtraction exi cp benv.fill).1, rfl, rfl, rfl⟩
    case questionAnswering =>
      cases aexn with
      | some s =>
        refine ⟨.intentEv IntentType.questionAnswering.value conf ::
          chunks.map (fun c => StreamEvent.messageChunk c "question_answer"),
          .errorEv "抱歉，我暂时无法回答您的问题。请稍后重试。", rfl, rfl, ?_⟩
        rw [List.all_cons, chunks_not_terminal]
        rfl
      | none =>
        refine ⟨.intentEv IntentType.questionAnswering.value conf ::
          chunks.map (fun c => StreamEvent.messageChunk c "question_answer"),
          .messageComplete (String.join chunks) "question_answer"
            IntentType.questionAnswering.value, rfl, rfl, ?_⟩
        rw [List.all_cons, chunks_not_terminal]
        rfl
    all_goals
      cases aexn with
      | some s =>
        refine ⟨_ :: chunks.map (fun c => StreamEvent.messageChunk c "conversation"),
          .errorEv "我正在学习如何更好地理解您的需求。请尝试更具体地描述您需要的帮助。", rfl, rfl, ?_⟩
        rw [List.all_cons, chunks_not_terminal]
        rfl
      | none =>
        refine ⟨_ :: chunks.map (fun c => StreamEvent.messageChunk c "conversation"),
          .messageComplete (String.join chunks) "conversation" _, rfl, rfl, ?_⟩
        rw [List.all_cons, chunks_not_terminal]
        rfl

end BpmAgent
